import Mathlib

/-!
# Fotomat: validation and geometry of thumbnail requests

A shallow embedding of `thumbnail/options.go` (`Options.Check`) and of the two
methods of `imager/imager.go` (`Imager.Thumbnail`, `Imager.Crop`), with the properties of the
validation order, the dimension bounds, the buffer budget and the fit / cover
geometry, and of the status a proxy response carries for each validation outcome.

Go's `int` is modelled by `Int`; the products of `Options.Check` go through
`mulInt`, which wraps modulo `2^64` as the 64-bit machine multiplication does.
Go's `float64` is modelled by `Float64` below, which keeps exactly what the two
comparisons of `Options.Check` can observe: the order of the finite values, the
two infinities, and the unordered NaN.
-/

namespace Fotomat

/-! ## Machine integers -/

/-- Two's-complement wrap of a mathematical integer into the 64-bit range of Go's `int`. -/
def wrapInt (x : Int) : Int := (x + 2 ^ 63) % 2 ^ 64 - 2 ^ 63

/-- Go's `a * b` on `int`: the product, wrapped modulo `2^64`. -/
def mulInt (a b : Int) : Int := wrapInt (a * b)

/-! ## Floating point, as far as comparisons see it -/

/-- A `float64` value up to what `<` and `>` observe: NaN, the infinities, or a finite value. -/
inductive Float64 where
  | nan : Float64
  | negInf : Float64
  | finite (q : ℚ) : Float64
  | posInf : Float64
  deriving DecidableEq

namespace Float64

/-- IEEE 754 `<`: false as soon as either side is NaN. -/
def lt : Float64 → Float64 → Bool
  | nan, _ => false
  | _, nan => false
  | posInf, _ => false
  | _, negInf => false
  | negInf, _ => true
  | _, posInf => true
  | finite a, finite b => decide (a < b)

/-- IEEE 754 `<=`: false as soon as either side is NaN. -/
def le : Float64 → Float64 → Bool
  | nan, _ => false
  | _, nan => false
  | negInf, _ => true
  | _, posInf => true
  | posInf, _ => false
  | _, negInf => false
  | finite a, finite b => decide (a ≤ b)

/-- IEEE 754 `>`, which Go evaluates as the mirrored `<`. -/
def gt (a b : Float64) : Bool := lt b a

/-- Membership in the closed interval `[lo, hi]`. -/
def inClosed (lo hi x : Float64) : Bool := le lo x && le x hi

end Float64

/-! ## Package `format`: the declarations `Options.Check` reads -/

/-- The image formats the tests name (`format.Unknown`, `Jpeg`, `Png`, `Gif`, `Webp`). -/
inductive Format where
  | Unknown : Format
  | Jpeg : Format
  | Png : Format
  | Gif : Format
  | Webp : Format
  deriving DecidableEq

/-- The record `format.Metadata`: the fields `Options.Check` and the tests read. -/
structure Metadata where
  Width : Int
  Height : Int
  Format : Format
  deriving DecidableEq

/-- The record `format.SaveOptions`, with the fields the tests set; `Options.Check` never reads it. -/
structure SaveOptions where
  Format : Format
  LosslessMaxBitsPerPixel : Int
  Lossless : Bool
  AllowWebp : Bool
  deriving DecidableEq

/-! ## Package `thumbnail`: `options.go` -/

/-- The errors `Options.Check` returns: `format.ErrUnknownFormat` and the three of `options.go`. -/
inductive Error where
  | ErrUnknownFormat : Error
  | ErrBadOption : Error
  | ErrTooBig : Error
  | ErrTooSmall : Error
  deriving DecidableEq

/-- Lower bound of a source dimension (`minDimension = 2`). -/
def minDimension : Int := 2

/-- Upper bound of every dimension (`maxDimension = (1 << 15) - 2`). -/
def maxDimension : Int := 2 ^ 15 - 2

/-- The record `Options` of `options.go`; the two durations are nanosecond counts. -/
structure Options where
  Width : Int
  Height : Int
  Crop : Bool
  MaxBufferPixels : Int
  Sharpen : Bool
  BlurSigma : Float64
  FastResize : Bool
  MaxQueueDuration : Int
  MaxProcessingDuration : Int
  Save : SaveOptions
  deriving DecidableEq

/-- Go's zero value `Options{}`. -/
def Options.zero : Options :=
  { Width := 0, Height := 0, Crop := false, MaxBufferPixels := 0, Sharpen := false,
    BlurSigma := Float64.finite 0, FastResize := false, MaxQueueDuration := 0,
    MaxProcessingDuration := 0,
    Save := { Format := Format.Unknown, LosslessMaxBitsPerPixel := 0, Lossless := false,
              AllowWebp := false } }

/-- Lines 71-77 of `options.go`: an unset (zero) `Width` or `Height` becomes the original one. -/
def Options.defaulted (o : Options) (m : Metadata) : Options :=
  let o1 := if o.Width = 0 then { o with Width := m.Width } else o
  if o1.Height = 0 then { o1 with Height := m.Height } else o1

/-- The guard of line 87: crop mode with a requested box larger than the original. -/
def Options.cropExceeds (o : Options) (m : Metadata) : Bool :=
  o.Crop && (decide (o.Width > m.Width) || decide (o.Height > m.Height))

/-- Lines 93-96: the pre-scale the JPEG decoder is assumed to offer. -/
def bufferScale (m : Metadata) : Int := if m.Format = Format.Jpeg then 8 else 1

/-- The guard of line 97, with Go's wrapping products. -/
def Options.bufferExceeded (o : Options) (m : Metadata) : Bool :=
  decide (o.MaxBufferPixels > 0) &&
    decide (mulInt m.Width m.Height >
      mulInt (mulInt o.MaxBufferPixels (bufferScale m)) (bufferScale m))

/-- The guard of line 101 on `BlurSigma`. -/
def Options.blurRejected (o : Options) : Bool :=
  Float64.lt o.BlurSigma (Float64.finite 0) || Float64.gt o.BlurSigma (Float64.finite 8)

/-- Lines 85-89: the options after the crop shrink, given the ones after defaulting. -/
def Options.shrunk (scaleAspect : Int → Int → Int → Int → Bool → Int × Int)
    (o : Options) (m : Metadata) : Options :=
  if (o.defaulted m).cropExceeds m then
    { o.defaulted m with
      Width := (scaleAspect (o.defaulted m).Width (o.defaulted m).Height m.Width m.Height true).1
      Height := (scaleAspect (o.defaulted m).Width (o.defaulted m).Height m.Width m.Height true).2 }
  else o.defaulted m

/-- The method `Options.Check` of `options.go`, statement by statement.  `scaleAspect` is the
package function called at line 88; its third result is discarded there, so the parameter
returns the first two.  A failure returns the error alone (Go pairs it with `Options{}`). -/
def Options.Check (scaleAspect : Int → Int → Int → Int → Bool → Int × Int)
    (o : Options) (m : Metadata) : Except Error Options :=
  if m.Format = Format.Unknown then Except.error Error.ErrUnknownFormat
  else if m.Width < minDimension ∨ m.Height < minDimension then Except.error Error.ErrTooSmall
  else if m.Width > maxDimension ∨ m.Height > maxDimension then Except.error Error.ErrTooBig
  else
    let o1 := if o.Width = 0 then { o with Width := m.Width } else o
    let o2 := if o1.Height = 0 then { o1 with Height := m.Height } else o1
    if o2.Width < 1 ∨ o2.Height < 1 then Except.error Error.ErrTooSmall
    else if o2.Width > maxDimension ∨ o2.Height > maxDimension then
      Except.error Error.ErrTooBig
    else
      let o3 :=
        if o2.Crop && (decide (o2.Width > m.Width) || decide (o2.Height > m.Height)) then
          { o2 with
            Width := (scaleAspect o2.Width o2.Height m.Width m.Height true).1
            Height := (scaleAspect o2.Width o2.Height m.Width m.Height true).2 }
        else o2
      let scale : Int := if m.Format = Format.Jpeg then 8 else 1
      if o3.MaxBufferPixels > 0 ∧
          mulInt m.Width m.Height > mulInt (mulInt o3.MaxBufferPixels scale) scale then
        Except.error Error.ErrTooBig
      else if (Float64.lt o3.BlurSigma (Float64.finite 0) ||
          Float64.gt o3.BlurSigma (Float64.finite 8)) = true then
        Except.error Error.ErrBadOption
      else Except.ok o3

/-! ## The geometry primitive `scaleAspect` -/

/-- Modelled from the spec: the rounding of `scaleAspect`, whose body is missing from the
sources.  The spec leaves the rounding open; the sizes the tests of `thumbnail_test.go` expect
(269 for 269.35, 223 for 222.76, 299 for 298.5) are those of rounding to the nearest whole
pixel, a half going up.  The operands are never negative where the package calls it. -/
def roundDiv (a b : Int) : Int := (a + b / 2) / b

/-- Modelled from the spec: the fit mode of `scaleAspect`, whose body is missing from the
sources: "scale `src` down (never up) so it fits entirely inside the box, preserving aspect
ratio; the smaller of the two scale factors (width-limited vs height-limited) wins".  The
width factor `boxW / srcW` is the smaller one when `boxW * srcH <= boxH * srcW`. -/
def scaleFit (srcW srcH boxW boxH : Int) : Int × Int :=
  if srcW ≤ boxW ∧ srcH ≤ boxH then (srcW, srcH)
  else if boxW * srcH ≤ boxH * srcW then (boxW, roundDiv (srcH * boxW) srcW)
  else (roundDiv (srcW * boxH) srcH, boxH)

/-- Modelled from the spec: the cover mode of `scaleAspect`, whose body is missing from the
sources: "scale `src` so it fully covers the box (at least one dimension exact, the other >=
box), i.e. the larger of the two scale factors wins", and "never upscale past the source's
native resolution": when the larger factor is 1 or more the source size is returned. -/
def scaleCover (srcW srcH boxW boxH : Int) : Int × Int :=
  if srcW ≤ boxW ∨ srcH ≤ boxH then (srcW, srcH)
  else if boxH * srcW ≤ boxW * srcH then (boxW, roundDiv (srcH * boxW) srcW)
  else (roundDiv (srcW * boxH) srcH, boxH)

/-- Modelled from the spec: the function `scaleAspect` of the package, whose body is missing
from the sources; the two behaviours are the spec's fit and cover.  The Boolean is read as the
call sites under `src` use it: `options.go:88` and `imager.go:107` pass `true` to "scale request
down to fit within original dimensions" (the test expects 2000x1500 on 398x536 to become
398x299), and `imager.go:112` passes `false` for the pre-crop size, so `true` selects the fit.
The spec names the same Boolean by its opposite sense, `cover`. -/
def scaleAspect (ow oh rw rh : Int) (within : Bool) : Int × Int :=
  if within then scaleFit ow oh rw rh else scaleCover ow oh rw rh

/-! ## Package `imager`: `imager.go` on sizes -/

/-- The fields of `Imager` that `Thumbnail` and `Crop` read for their geometry. -/
structure Imager where
  width : Int
  height : Int
  format : Format
  deriving DecidableEq

/-- The functions `imager.go` calls whose bodies are missing from the sources, taken as
parameters, each with its error return: `check` is the error of `options.Check(format, width,
height)` of package `imager` (`none` for `nil`; the source reads `options.Width` and
`options.Height` after the call), `newResult` is `imager.NewResult(width, height)` giving the
size of the loaded result, `resize` and `crop` are `result.Resize` and `result.Crop` giving the
size of the result afterwards, and `get` is the error of `result.Get()`, whose bytes have the
size of the result. -/
structure Backend (ε : Type) where
  check : Options → Format → Int → Int → Option ε
  newResult : Imager → Int → Int → Except ε (Int × Int)
  resize : Int × Int → Int → Int → Except ε (Int × Int)
  crop : Int × Int → Int → Int → Except ε (Int × Int)
  get : Int × Int → Option ε

/-- Modelled from the spec: a backend that never fails after validation, for evaluating
`imager.go` on concrete requests.  Validation is the spec's `Validate` (the errors of
`Options.Check`), the image loads at its original size, and `Resize(w, h)` and `Crop(w, h)`
leave a result of size `w` by `h`, as the spec's codec boundary states them. -/
def Backend.ideal : Backend Error :=
  { check := fun o f w h =>
      match Options.Check scaleAspect o { Width := w, Height := h, Format := f } with
      | Except.ok _ => none
      | Except.error err => some err
    newResult := fun imager _ _ => Except.ok (imager.width, imager.height)
    resize := fun _ w h => Except.ok (w, h)
    crop := fun _ w h => Except.ok (w, h)
    get := fun _ => none }

/-- The method `Imager.Thumbnail` of `imager.go` (lines 71-94), returning the size of the
image `result.Get()` encodes.  Line 79 passes `options.Crop` as the Boolean of
`scaleAspect`. -/
def Imager.Thumbnail {ε : Type} (backend : Backend ε) (imager : Imager) (options : Options) :
    Except ε (Int × Int) :=
  match backend.check options imager.format imager.width imager.height with
  | some err => Except.error err
  | none =>
    let size : Int × Int :=
      scaleAspect imager.width imager.height options.Width options.Height options.Crop
    match backend.newResult imager size.1 size.2 with
    | Except.error err => Except.error err
    | Except.ok loaded =>
      match (if loaded.1 > size.1 ∨ loaded.2 > size.2 then backend.resize loaded size.1 size.2
          else Except.ok loaded) with
      | Except.error err => Except.error err
      | Except.ok resized =>
        match backend.get resized with
        | some err => Except.error err
        | none => Except.ok resized

/-- Lines 101-108 of `imager.go`: the requested box, scaled down when it exceeds the
original. -/
def Imager.cropBox (imager : Imager) (options : Options) : Int × Int :=
  if options.Width > imager.width ∨ options.Height > imager.height then
    scaleAspect options.Width options.Height imager.width imager.height true
  else (options.Width, options.Height)

/-- Line 112 of `imager.go`: the intermediate size before the crop. -/
def Imager.cropIntermediate (imager : Imager) (options : Options) : Int × Int :=
  scaleAspect imager.width imager.height (imager.cropBox options).1 (imager.cropBox options).2
    false

/-- The sizes `Imager.Crop` goes through: the requested box after lines 104-108, the
intermediate size of line 112, and the size of the result it returns. -/
structure CropSizes where
  width : Int
  height : Int
  iw : Int
  ih : Int
  resultWidth : Int
  resultHeight : Int
  deriving DecidableEq

/-- The method `Imager.Crop` of `imager.go` (lines 96-135), returning the sizes it went
through, the last being that of the image `result.Get()` encodes. -/
def Imager.Crop {ε : Type} (backend : Backend ε) (imager : Imager) (options : Options) :
    Except ε CropSizes :=
  match backend.check options imager.format imager.width imager.height with
  | some err => Except.error err
  | none =>
    let box : Int × Int := imager.cropBox options
    let inter : Int × Int := imager.cropIntermediate options
    match backend.newResult imager inter.1 inter.2 with
    | Except.error err => Except.error err
    | Except.ok loaded =>
      match (if loaded.1 > inter.1 ∨ loaded.2 > inter.2 then
          backend.resize loaded inter.1 inter.2 else Except.ok loaded) with
      | Except.error err => Except.error err
      | Except.ok resized =>
        match (if resized.1 > box.1 ∨ resized.2 > box.2 then
            backend.crop resized box.1 box.2 else Except.ok resized) with
        | Except.error err => Except.error err
        | Except.ok cropped =>
          match backend.get cropped with
          | some err => Except.error err
          | none =>
            Except.ok
              { width := box.1, height := box.2, iw := inter.1, ih := inter.2,
                resultWidth := cropped.1, resultHeight := cropped.2 }

/-! ## Package `thumbnail`: the status of a proxy response -/

/-- Modelled from the spec: what the origin fetch and the codec's `Load` hand to the proxy,
whose source (`proxy.go`) is missing.  The origin answers not-found, fails otherwise (a
non-200 response or a transport error), or returns bytes, which the codec either loads into
`Metadata` or refuses with its unknown-format error ("unparseable or truncated input"). -/
inductive Origin where
  | notFound : Origin
  | failed : Origin
  | body (loaded : Option Metadata) : Origin
  deriving DecidableEq

/-- Modelled from the spec: the status table of its section 6 for the validation errors, the
proxy source being missing.  Unknown format and too small give 415, too big gives 413; the
spec gives no status for `ErrBadOption`, which is the parameter `badOption`. -/
def statusOfError (badOption : Int) : Error → Int
  | Error.ErrUnknownFormat => 415
  | Error.ErrTooSmall => 415
  | Error.ErrTooBig => 413
  | Error.ErrBadOption => badOption

/-- Modelled from the spec: the status `Proxy.ServeHTTP` answers with, the proxy source being
missing (section 4.3, steps 1 to 5, and the table of section 6).  `director` is the pair the
director returned; a non-zero status is returned verbatim without touching the origin;
otherwise origin not-found gives 404, another origin failure gives the parameter
`originFailure` (the spec names no value), bytes the codec cannot load give 415, and a loaded
image goes through `Options.Check`, success giving 200. -/
def Proxy.status (originFailure badOption : Int) (director : Options × Int)
    (origin : Origin) : Int :=
  if director.2 ≠ 0 then director.2
  else
    match origin with
    | Origin.notFound => 404
    | Origin.failed => originFailure
    | Origin.body none => 415
    | Origin.body (some m) =>
      match Options.Check scaleAspect director.1 m with
      | Except.ok _ => 200
      | Except.error err => statusOfError badOption err

/-! ## Unfolding lemmas -/

theorem wrapInt_of_range (x : Int) (h1 : -2 ^ 63 ≤ x) (h2 : x < 2 ^ 63) : wrapInt x = x := by
  unfold wrapInt
  have h : (x + 2 ^ 63) % 2 ^ 64 = x + 2 ^ 63 := Int.emod_eq_of_lt (by linarith) (by linarith)
  rw [h]; ring

theorem Options.Check_eq (sa : Int → Int → Int → Int → Bool → Int × Int)
    (o : Options) (m : Metadata) :
    Options.Check sa o m =
      if m.Format = Format.Unknown then Except.error Error.ErrUnknownFormat
      else if m.Width < minDimension ∨ m.Height < minDimension then
        Except.error Error.ErrTooSmall
      else if m.Width > maxDimension ∨ m.Height > maxDimension then
        Except.error Error.ErrTooBig
      else if (o.defaulted m).Width < 1 ∨ (o.defaulted m).Height < 1 then
        Except.error Error.ErrTooSmall
      else if (o.defaulted m).Width > maxDimension ∨ (o.defaulted m).Height > maxDimension then
        Except.error Error.ErrTooBig
      else if (o.shrunk sa m).bufferExceeded m = true then Except.error Error.ErrTooBig
      else if (o.shrunk sa m).blurRejected = true then Except.error Error.ErrBadOption
      else Except.ok (o.shrunk sa m) := by
  simp only [Options.Check, Options.defaulted, Options.shrunk, Options.cropExceeds,
    Options.bufferExceeded, Options.blurRejected, bufferScale, Bool.and_eq_true,
    decide_eq_true_eq]

theorem Options.defaulted_Width (o : Options) (m : Metadata) :
    (o.defaulted m).Width = if o.Width = 0 then m.Width else o.Width := by
  unfold Options.defaulted
  by_cases hw : o.Width = 0 <;> by_cases hh : o.Height = 0 <;> simp [hw, hh]

theorem Options.defaulted_Height (o : Options) (m : Metadata) :
    (o.defaulted m).Height = if o.Height = 0 then m.Height else o.Height := by
  unfold Options.defaulted
  by_cases hw : o.Width = 0 <;> by_cases hh : o.Height = 0 <;> simp [hw, hh]

theorem Options.defaulted_rest (o : Options) (m : Metadata) :
    o.defaulted m =
      { o with Width := (o.defaulted m).Width, Height := (o.defaulted m).Height } := by
  unfold Options.defaulted
  by_cases hw : o.Width = 0 <;> by_cases hh : o.Height = 0 <;> simp [hw, hh]

theorem Options.shrunk_rest (sa : Int → Int → Int → Int → Bool → Int × Int)
    (o : Options) (m : Metadata) :
    o.shrunk sa m =
      { o with Width := (o.shrunk sa m).Width, Height := (o.shrunk sa m).Height } := by
  unfold Options.shrunk
  by_cases hc : (o.defaulted m).cropExceeds m = true
  · simp only [hc, if_true]
    rw [Options.defaulted_rest o m]
  · simp only [hc]
    exact Options.defaulted_rest o m

theorem Options.shrunk_of_not_exceeds (sa : Int → Int → Int → Int → Bool → Int × Int)
    (o : Options) (m : Metadata) (h : (o.defaulted m).cropExceeds m = false) :
    o.shrunk sa m = o.defaulted m := by
  simp [Options.shrunk, h]

theorem Options.shrunk_bufferExceeded (sa : Int → Int → Int → Int → Bool → Int × Int)
    (o : Options) (m : Metadata) :
    (o.shrunk sa m).bufferExceeded m = o.bufferExceeded m := by
  rw [Options.shrunk_rest sa o m]; rfl

theorem Options.shrunk_blurRejected (sa : Int → Int → Int → Int → Bool → Int × Int)
    (o : Options) (m : Metadata) :
    (o.shrunk sa m).blurRejected = o.blurRejected := by
  rw [Options.shrunk_rest sa o m]; rfl

/-- The outcome of `Options.Check` once the format and the four size checks have passed. -/
theorem Options.Check_of_sizes (sa : Int → Int → Int → Int → Bool → Int × Int)
    (o : Options) (m : Metadata) (hf : m.Format ≠ Format.Unknown)
    (hmw : minDimension ≤ m.Width ∧ m.Width ≤ maxDimension)
    (hmh : minDimension ≤ m.Height ∧ m.Height ≤ maxDimension)
    (hw : 1 ≤ (o.defaulted m).Width ∧ (o.defaulted m).Width ≤ maxDimension)
    (hh : 1 ≤ (o.defaulted m).Height ∧ (o.defaulted m).Height ≤ maxDimension) :
    Options.Check sa o m =
      if o.bufferExceeded m = true then Except.error Error.ErrTooBig
      else if o.blurRejected = true then Except.error Error.ErrBadOption
      else Except.ok (o.shrunk sa m) := by
  rw [Options.Check_eq, Options.shrunk_bufferExceeded, Options.shrunk_blurRejected]
  have h1 : ¬ (m.Width < minDimension ∨ m.Height < minDimension) := by
    rintro (h | h) <;> omega
  have h2 : ¬ (m.Width > maxDimension ∨ m.Height > maxDimension) := by
    rintro (h | h) <;> omega
  have h3 : ¬ ((o.defaulted m).Width < 1 ∨ (o.defaulted m).Height < 1) := by
    rintro (h | h) <;> omega
  have h4 : ¬ ((o.defaulted m).Width > maxDimension ∨ (o.defaulted m).Height > maxDimension) := by
    rintro (h | h) <;> omega
  simp only [hf, h1, h2, h3, h4, if_false]

/-- What a successful `Options.Check` tells about its input. -/
theorem Options.Check_ok_inv (sa : Int → Int → Int → Int → Bool → Int × Int)
    (o : Options) (m : Metadata) (r : Options) (h : Options.Check sa o m = Except.ok r) :
    m.Format ≠ Format.Unknown ∧
    (minDimension ≤ m.Width ∧ m.Width ≤ maxDimension) ∧
    (minDimension ≤ m.Height ∧ m.Height ≤ maxDimension) ∧
    (1 ≤ (o.defaulted m).Width ∧ (o.defaulted m).Width ≤ maxDimension) ∧
    (1 ≤ (o.defaulted m).Height ∧ (o.defaulted m).Height ≤ maxDimension) ∧
    o.bufferExceeded m = false ∧ o.blurRejected = false ∧ r = o.shrunk sa m := by
  rw [Options.Check_eq, Options.shrunk_bufferExceeded, Options.shrunk_blurRejected] at h
  split_ifs at h with h0 h1 h2 h3 h4 h5 h6
  injection h with h
  refine ⟨h0, ⟨?_, ?_⟩, ⟨?_, ?_⟩, ⟨?_, ?_⟩, ⟨?_, ?_⟩, ?_, ?_, h.symm⟩
  · by_contra hc; exact h1 (Or.inl (by omega))
  · by_contra hc; exact h2 (Or.inl (by omega))
  · by_contra hc; exact h1 (Or.inr (by omega))
  · by_contra hc; exact h2 (Or.inr (by omega))
  · by_contra hc; exact h3 (Or.inl (by omega))
  · by_contra hc; exact h4 (Or.inl (by omega))
  · by_contra hc; exact h3 (Or.inr (by omega))
  · by_contra hc; exact h4 (Or.inr (by omega))
  · simpa using h5
  · simpa using h6

theorem mulInt_of_range (a b : Int) (h1 : -2 ^ 63 ≤ a * b) (h2 : a * b < 2 ^ 63) :
    mulInt a b = a * b := wrapInt_of_range (a * b) h1 h2

/-- Without overflow the guard of line 97 compares the mathematical products. -/
theorem Options.bufferExceeded_iff (o : Options) (m : Metadata)
    (hmw : minDimension ≤ m.Width ∧ m.Width ≤ maxDimension)
    (hmh : minDimension ≤ m.Height ∧ m.Height ≤ maxDimension)
    (hb : 0 < o.MaxBufferPixels) (hb2 : o.MaxBufferPixels ≤ 2 ^ 56) :
    o.bufferExceeded m = true ↔
      m.Width * m.Height > o.MaxBufferPixels * bufferScale m * bufferScale m := by
  have hs : bufferScale m = 1 ∨ bufferScale m = 8 := by
    unfold bufferScale; split_ifs <;> simp
  simp only [minDimension, maxDimension] at hmw hmh
  have hp1 : 0 ≤ m.Width * m.Height := by nlinarith
  have hp2 : m.Width * m.Height ≤ 32766 * 32766 := by nlinarith
  have e1 : mulInt m.Width m.Height = m.Width * m.Height :=
    mulInt_of_range _ _ (by omega) (by omega)
  have e2 : mulInt o.MaxBufferPixels (bufferScale m) = o.MaxBufferPixels * bufferScale m := by
    apply mulInt_of_range <;> rcases hs with hs | hs <;> rw [hs] <;> omega
  have e3 : mulInt (o.MaxBufferPixels * bufferScale m) (bufferScale m) =
      o.MaxBufferPixels * bufferScale m * bufferScale m := by
    apply mulInt_of_range <;> rcases hs with hs | hs <;> rw [hs] <;> omega
  simp only [Options.bufferExceeded, e1, e2, e3, Bool.and_eq_true, decide_eq_true_eq, gt_iff_lt]
  exact ⟨fun h => h.2, fun h => ⟨hb, h⟩⟩

/-! ## The validation order and the bounds of `Options.Check` -/

/-- C1: for a known format, a source narrower or lower than `minDimension` fails with
`ErrTooSmall`; otherwise a source wider or taller than `maxDimension` fails with `ErrTooBig`;
this holds for every `Options` and every `scaleAspect`. -/
theorem check_source_size (sa : Int → Int → Int → Int → Bool → Int × Int)
    (o : Options) (m : Metadata) (hf : m.Format ≠ Format.Unknown) :
    ((m.Width < minDimension ∨ m.Height < minDimension) →
      Options.Check sa o m = Except.error Error.ErrTooSmall) ∧
    (¬ (m.Width < minDimension ∨ m.Height < minDimension) →
      (m.Width > maxDimension ∨ m.Height > maxDimension) →
      Options.Check sa o m = Except.error Error.ErrTooBig) := by
  constructor
  · intro h
    rw [Options.Check_eq]; simp only [hf, h, if_false, if_true]
  · intro h1 h2
    rw [Options.Check_eq]; simp only [hf, h1, h2, if_false, if_true]

/-- The test values of C1: a 1x1 PNG is too small, a 34000x16 PNG is too big, and a 2x3 PNG
passes, all three with `Options{Width: 200, Height: 200}`. -/
theorem check_source_size_witness :
    Options.Check scaleAspect { Options.zero with Width := 200, Height := 200 }
        { Width := 1, Height := 1, Format := Format.Png } = Except.error Error.ErrTooSmall ∧
    Options.Check scaleAspect { Options.zero with Width := 200, Height := 200 }
        { Width := 34000, Height := 16, Format := Format.Png } = Except.error Error.ErrTooBig ∧
    Options.Check scaleAspect { Options.zero with Width := 200, Height := 200 }
        { Width := 2, Height := 3, Format := Format.Png } =
      Except.ok { Options.zero with Width := 200, Height := 200 } :=
  ⟨(check_source_size scaleAspect _ { Width := 1, Height := 1, Format := Format.Png }
      (by decide)).1 (by decide),
   (check_source_size scaleAspect _ { Width := 34000, Height := 16, Format := Format.Png }
      (by decide)).2 (by decide) (by decide),
   rfl⟩

/-- C2: once the format and size checks have passed and `0 < MaxBufferPixels <= 2^56`,
`Options.Check` fails with `ErrTooBig` exactly when `Width * Height` of the source exceeds
`MaxBufferPixels * s * s`, with `s = 8` for JPEG and `1` otherwise; with `MaxBufferPixels = 0`
it does not fail with `ErrTooBig`. -/
theorem check_buffer_budget (sa : Int → Int → Int → Int → Bool → Int × Int)
    (o : Options) (m : Metadata) (hf : m.Format ≠ Format.Unknown)
    (hmw : minDimension ≤ m.Width ∧ m.Width ≤ maxDimension)
    (hmh : minDimension ≤ m.Height ∧ m.Height ≤ maxDimension)
    (hw : 1 ≤ (o.defaulted m).Width ∧ (o.defaulted m).Width ≤ maxDimension)
    (hh : 1 ≤ (o.defaulted m).Height ∧ (o.defaulted m).Height ≤ maxDimension) :
    (0 < o.MaxBufferPixels → o.MaxBufferPixels ≤ 2 ^ 56 →
      (Options.Check sa o m = Except.error Error.ErrTooBig ↔
        m.Width * m.Height >
          o.MaxBufferPixels * (if m.Format = Format.Jpeg then 8 else 1) *
            (if m.Format = Format.Jpeg then 8 else 1))) ∧
    (o.MaxBufferPixels = 0 → Options.Check sa o m ≠ Except.error Error.ErrTooBig) := by
  rw [Options.Check_of_sizes sa o m hf hmw hmh hw hh]
  constructor
  · intro hb hb2
    have hiff := Options.bufferExceeded_iff o m hmw hmh hb hb2
    unfold bufferScale at hiff
    rw [← hiff]
    by_cases hx : o.bufferExceeded m = true
    · simp [hx]
    · by_cases hy : o.blurRejected = true <;> simp [hx, hy]
  · intro hb
    have hx : o.bufferExceeded m = false := by simp [Options.bufferExceeded, hb]
    by_cases hy : o.blurRejected = true <;> simp [hx, hy]

/-- The test values of C2: the 398x536 JPEG (213328 pixels) asked at 200x300 is rejected with a
budget of 1000 pixels and accepted with a budget of 10000. -/
theorem check_buffer_budget_witness :
    Options.Check scaleAspect
        { Options.zero with Width := 200, Height := 300, MaxBufferPixels := 1000 }
        { Width := 398, Height := 536, Format := Format.Jpeg } =
      Except.error Error.ErrTooBig ∧
    Options.Check scaleAspect
        { Options.zero with Width := 200, Height := 300, MaxBufferPixels := 10000 }
        { Width := 398, Height := 536, Format := Format.Jpeg } ≠
      Except.error Error.ErrTooBig :=
  ⟨((check_buffer_budget scaleAspect
        { Options.zero with Width := 200, Height := 300, MaxBufferPixels := 1000 }
        { Width := 398, Height := 536, Format := Format.Jpeg }
        (by decide) (by decide) (by decide) (by decide) (by decide)).1
      (by decide) (by decide)).2 (by decide),
   fun h => absurd
    (((check_buffer_budget scaleAspect
        { Options.zero with Width := 200, Height := 300, MaxBufferPixels := 10000 }
        { Width := 398, Height := 536, Format := Format.Jpeg }
        (by decide) (by decide) (by decide) (by decide) (by decide)).1
      (by decide) (by decide)).1 h) (by decide)⟩

/-- C3, as stated, fails: a requested size of 1x1 on a 2x2 PNG is below `minDimension` and
`Options.Check` accepts it, returning `Width = 1` and `Height = 1`. -/
theorem check_request_one_counterexample :
    Options.Check scaleAspect { Options.zero with Width := 1, Height := 1 }
        { Width := 2, Height := 2, Format := Format.Png } =
      Except.ok { Options.zero with Width := 1, Height := 1 } ∧
    (1 : Int) < minDimension :=
  ⟨rfl, by decide⟩

/-- C3, amended: whenever `Options.Check` succeeds, the source width and height lie in
`[minDimension, maxDimension]`, the requested width and height after defaulting lie in
`[1, maxDimension]`, and, when the crop shrink of line 87 does not apply, so do the returned
`Width` and `Height`. -/
theorem check_accepted_bounds (sa : Int → Int → Int → Int → Bool → Int × Int)
    (o : Options) (m : Metadata) (r : Options) (h : Options.Check sa o m = Except.ok r) :
    (minDimension ≤ m.Width ∧ m.Width ≤ maxDimension) ∧
    (minDimension ≤ m.Height ∧ m.Height ≤ maxDimension) ∧
    (1 ≤ (o.defaulted m).Width ∧ (o.defaulted m).Width ≤ maxDimension) ∧
    (1 ≤ (o.defaulted m).Height ∧ (o.defaulted m).Height ≤ maxDimension) ∧
    ((o.defaulted m).cropExceeds m = false →
      (1 ≤ r.Width ∧ r.Width ≤ maxDimension) ∧ (1 ≤ r.Height ∧ r.Height ≤ maxDimension)) := by
  obtain ⟨_, hmw, hmh, hw, hh, _, _, hr⟩ := Options.Check_ok_inv sa o m r h
  refine ⟨hmw, hmh, hw, hh, fun hc => ?_⟩
  rw [hr, Options.shrunk_of_not_exceeds sa o m hc]
  exact ⟨hw, hh⟩

/-- The amended C3 at the request of 1x1 on a 2x2 PNG. -/
theorem check_accepted_bounds_witness :
    (1 ≤ (1 : Int) ∧ (1 : Int) ≤ maxDimension) ∧ (1 ≤ (1 : Int) ∧ (1 : Int) ≤ maxDimension) :=
  (check_accepted_bounds scaleAspect { Options.zero with Width := 1, Height := 1 }
    { Width := 2, Height := 2, Format := Format.Png }
    { Options.zero with Width := 1, Height := 1 } rfl).2.2.2.2 (by decide)

/-- C4: for a valid source, with `w` and `h` the requested width and height after defaulting:
`w < 1` or `h < 1` fails with `ErrTooSmall`; otherwise `w` or `h` above `maxDimension` fails
with `ErrTooBig`; and with both in `[1, maxDimension]` the outcome is that of the buffer and
blur checks alone, so no error comes from the requested size. -/
theorem check_requested_size (sa : Int → Int → Int → Int → Bool → Int × Int)
    (o : Options) (m : Metadata) (hf : m.Format ≠ Format.Unknown)
    (hmw : minDimension ≤ m.Width ∧ m.Width ≤ maxDimension)
    (hmh : minDimension ≤ m.Height ∧ m.Height ≤ maxDimension) :
    (((if o.Width = 0 then m.Width else o.Width) < 1 ∨
        (if o.Height = 0 then m.Height else o.Height) < 1) →
      Options.Check sa o m = Except.error Error.ErrTooSmall) ∧
    (¬ ((if o.Width = 0 then m.Width else o.Width) < 1 ∨
        (if o.Height = 0 then m.Height else o.Height) < 1) →
      ((if o.Width = 0 then m.Width else o.Width) > maxDimension ∨
        (if o.Height = 0 then m.Height else o.Height) > maxDimension) →
      Options.Check sa o m = Except.error Error.ErrTooBig) ∧
    ((1 ≤ (if o.Width = 0 then m.Width else o.Width) ∧
        (if o.Width = 0 then m.Width else o.Width) ≤ maxDimension) →
      (1 ≤ (if o.Height = 0 then m.Height else o.Height) ∧
        (if o.Height = 0 then m.Height else o.Height) ≤ maxDimension) →
      Options.Check sa o m ≠ Except.error Error.ErrTooSmall ∧
      Options.Check sa o m =
        if o.bufferExceeded m = true then Except.error Error.ErrTooBig
        else if o.blurRejected = true then Except.error Error.ErrBadOption
        else Except.ok (o.shrunk sa m)) := by
  have h1 : ¬ (m.Width < minDimension ∨ m.Height < minDimension) := by
    rintro (h | h) <;> omega
  have h2 : ¬ (m.Width > maxDimension ∨ m.Height > maxDimension) := by
    rintro (h | h) <;> omega
  rw [← Options.defaulted_Width o m, ← Options.defaulted_Height o m]
  refine ⟨fun h => ?_, fun h3 h4 => ?_, fun hw hh => ?_⟩
  · rw [Options.Check_eq]; simp only [hf, h1, h2, h, if_false, if_true]
  · rw [Options.Check_eq]; simp only [hf, h1, h2, h3, h4, if_false, if_true]
  · have e := Options.Check_of_sizes sa o m hf hmw hmh hw hh
    refine ⟨?_, e⟩
    rw [e]
    by_cases hx : o.bufferExceeded m = true
    · simp [hx]
    · by_cases hy : o.blurRejected = true <;> simp [hx, hy]

/-- C4 at concrete requests on the 398x536 JPEG: a width of -5 is too small, a width of 40000
is too big, and the unset request 0x0 is accepted as 398x536. -/
theorem check_requested_size_witness :
    Options.Check scaleAspect { Options.zero with Width := -5 }
        { Width := 398, Height := 536, Format := Format.Jpeg } =
      Except.error Error.ErrTooSmall ∧
    Options.Check scaleAspect { Options.zero with Width := 40000 }
        { Width := 398, Height := 536, Format := Format.Jpeg } =
      Except.error Error.ErrTooBig ∧
    Options.Check scaleAspect Options.zero
        { Width := 398, Height := 536, Format := Format.Jpeg } ≠
      Except.error Error.ErrTooSmall :=
  ⟨(check_requested_size scaleAspect { Options.zero with Width := -5 }
      { Width := 398, Height := 536, Format := Format.Jpeg }
      (by decide) (by decide) (by decide)).1 (by decide),
   (check_requested_size scaleAspect { Options.zero with Width := 40000 }
      { Width := 398, Height := 536, Format := Format.Jpeg }
      (by decide) (by decide) (by decide)).2.1 (by decide) (by decide),
   ((check_requested_size scaleAspect Options.zero
      { Width := 398, Height := 536, Format := Format.Jpeg }
      (by decide) (by decide) (by decide)).2.2 (by decide) (by decide)).1⟩

/-- C5: with `m.Format = Unknown`, `Options.Check` fails with `ErrUnknownFormat`, whatever the
dimensions, the options and `scaleAspect` are. -/
theorem check_unknown_format (sa : Int → Int → Int → Int → Bool → Int × Int)
    (o : Options) (m : Metadata) (hf : m.Format = Format.Unknown) :
    Options.Check sa o m = Except.error Error.ErrUnknownFormat := by
  rw [Options.Check_eq]; simp only [hf, if_true]

/-- C5 on an unknown 1x40000 input with an oversized request, a one-pixel buffer and a NaN
blur: the format error wins over every other check. -/
theorem check_unknown_format_witness :
    Options.Check scaleAspect
        { Options.zero with Width := -1, Height := 40000, MaxBufferPixels := 1,
                            BlurSigma := Float64.nan }
        { Width := 1, Height := 40000, Format := Format.Unknown } =
      Except.error Error.ErrUnknownFormat :=
  check_unknown_format scaleAspect _ _ rfl

/-- C6: when `Options.Check` succeeds with `r`, every field of `r` other than `Width` and
`Height` is that of `o`; and unless crop mode meets a requested box larger than the original,
`r.Width` and `r.Height` are the requested ones, a zero replaced by the original dimension. -/
theorem check_result_fields (sa : Int → Int → Int → Int → Bool → Int × Int)
    (o : Options) (m : Metadata) (r : Options) (h : Options.Check sa o m = Except.ok r) :
    r = { o with Width := r.Width, Height := r.Height } ∧
    ((o.Crop = false ∨
        (o.Crop = true ∧ (if o.Width = 0 then m.Width else o.Width) ≤ m.Width ∧
          (if o.Height = 0 then m.Height else o.Height) ≤ m.Height)) →
      r.Width = (if o.Width = 0 then m.Width else o.Width) ∧
      r.Height = (if o.Height = 0 then m.Height else o.Height)) := by
  obtain ⟨_, _, _, _, _, _, _, hr⟩ := Options.Check_ok_inv sa o m r h
  constructor
  · rw [hr]; exact Options.shrunk_rest sa o m
  · intro hc
    have hcrop : (o.defaulted m).Crop = o.Crop := by rw [Options.defaulted_rest o m]
    have hne : (o.defaulted m).cropExceeds m = false := by
      unfold Options.cropExceeds
      rw [hcrop, Options.defaulted_Width, Options.defaulted_Height]
      rcases hc with hc | ⟨_, hw, hh⟩
      · simp [hc]
      · have e1 : decide ((if o.Width = 0 then m.Width else o.Width) > m.Width) = false :=
          decide_eq_false (by omega)
        have e2 : decide ((if o.Height = 0 then m.Height else o.Height) > m.Height) = false :=
          decide_eq_false (by omega)
        rw [e1, e2]; simp
    rw [hr, Options.shrunk_of_not_exceeds sa o m hne, Options.defaulted_Width,
      Options.defaulted_Height]
    exact ⟨rfl, rfl⟩

/-- The test value of C6: `Options{Width: 200}` on the 398x536 JPEG yields `Width = 200` and
`Height = 536`. -/
theorem check_result_fields_witness :
    Options.Check scaleAspect { Options.zero with Width := 200 }
        { Width := 398, Height := 536, Format := Format.Jpeg } =
      Except.ok { Options.zero with Width := 200, Height := 536 } ∧
    ((200 : Int) = (if (200 : Int) = 0 then 398 else 200) ∧
      (536 : Int) = (if (0 : Int) = 0 then 536 else 0)) :=
  ⟨rfl,
   (check_result_fields scaleAspect { Options.zero with Width := 200 }
      { Width := 398, Height := 536, Format := Format.Jpeg }
      { Options.zero with Width := 200, Height := 536 } rfl).2 (Or.inl rfl)⟩

/-! ## Rounding and the two modes of `scaleAspect` -/

theorem roundDiv_le (a b c : Int) (hb : 0 < b) (h : a ≤ c * b) : roundDiv a b ≤ c := by
  unfold roundDiv
  have h2 : b / 2 < b := by omega
  have h3 : (a + b / 2) / b < c + 1 := Int.ediv_lt_of_lt_mul hb (by linarith)
  omega

theorem roundDiv_ge (a b c : Int) (hb : 0 < b) (h : c * b ≤ a) : c ≤ roundDiv a b := by
  unfold roundDiv
  have h2 : 0 ≤ b / 2 := by omega
  exact Int.le_ediv_of_mul_le hb (by linarith)

/-- The rounded quotient times the divisor is within half a divisor of the dividend. -/
theorem roundDiv_near (a b : Int) (hb : 0 < b) :
    2 * (roundDiv a b * b) ≤ 2 * a + b ∧ 2 * a ≤ 2 * (roundDiv a b * b) + b := by
  unfold roundDiv
  have h1 : (a + b / 2) / b * b ≤ a + b / 2 := Int.ediv_mul_le _ (by omega)
  have h2 : a + b / 2 < ((a + b / 2) / b + 1) * b := Int.lt_ediv_add_one_mul_self _ hb
  have h3 : ((a + b / 2) / b + 1) * b = (a + b / 2) / b * b + b := by ring
  have h4 : 2 * (b / 2) ≤ b := by omega
  have h5 : b ≤ 2 * (b / 2) + 1 := by omega
  constructor <;> linarith

/-- The fit mode gives a size inside the source and inside the box. -/
theorem scaleFit_le (w h bw bh : Int) (hw : 0 < w) (hh : 0 < h) :
    ((scaleFit w h bw bh).1 ≤ w ∧ (scaleFit w h bw bh).2 ≤ h) ∧
    ((scaleFit w h bw bh).1 ≤ bw ∧ (scaleFit w h bw bh).2 ≤ bh) := by
  unfold scaleFit
  split_ifs with h1 h2
  · exact ⟨⟨le_refl _, le_refl _⟩, h1⟩
  · have hbw : bw ≤ w := by
      by_contra hc
      have h3 : bh < h := by
        by_contra hc2
        exact h1 ⟨by omega, by omega⟩
      nlinarith
    refine ⟨⟨hbw, ?_⟩, le_refl _, ?_⟩
    · exact roundDiv_le _ _ _ hw (by nlinarith)
    · exact roundDiv_le _ _ _ hw (by linarith)
  · have hbh : bh ≤ h := by
      by_contra hc
      have h3 : bw < w := by
        by_contra hc2
        exact h1 ⟨by omega, by omega⟩
      nlinarith
    refine ⟨⟨?_, hbh⟩, ?_, le_refl _⟩
    · exact roundDiv_le _ _ _ hh (by nlinarith)
    · exact roundDiv_le _ _ _ hh (by linarith)

/-- When the source does not fit, the fit mode makes one dimension that of the box and rounds
the other from the exact proportional value. -/
theorem scaleFit_ratio (w h bw bh : Int) (hw : 0 < w) (hh : 0 < h)
    (hn : ¬ (w ≤ bw ∧ h ≤ bh)) :
    ((scaleFit w h bw bh).1 = bw ∧
      2 * ((scaleFit w h bw bh).2 * w) ≤ 2 * (h * bw) + w ∧
      2 * (h * bw) ≤ 2 * ((scaleFit w h bw bh).2 * w) + w) ∨
    ((scaleFit w h bw bh).2 = bh ∧
      2 * ((scaleFit w h bw bh).1 * h) ≤ 2 * (w * bh) + h ∧
      2 * (w * bh) ≤ 2 * ((scaleFit w h bw bh).1 * h) + h) := by
  unfold scaleFit
  rw [if_neg hn]
  split_ifs with h2
  · exact Or.inl ⟨rfl, roundDiv_near _ _ hw⟩
  · exact Or.inr ⟨rfl, roundDiv_near _ _ hh⟩

/-- The cover mode, for a box inside the source, gives a size between the box and the source. -/
theorem scaleCover_ge (w h bw bh : Int) (hw : 0 < w) (hh : 0 < h)
    (hbw : bw ≤ w) (hbh : bh ≤ h) :
    (bw ≤ (scaleCover w h bw bh).1 ∧ bh ≤ (scaleCover w h bw bh).2) ∧
    ((scaleCover w h bw bh).1 ≤ w ∧ (scaleCover w h bw bh).2 ≤ h) := by
  unfold scaleCover
  split_ifs with h1 h2
  · exact ⟨⟨hbw, hbh⟩, le_refl _, le_refl _⟩
  · refine ⟨⟨le_refl _, ?_⟩, hbw, ?_⟩
    · exact roundDiv_ge _ _ _ hw (by linarith)
    · exact roundDiv_le _ _ _ hw (by nlinarith)
  · refine ⟨⟨?_, le_refl _⟩, ?_, hbh⟩
    · exact roundDiv_ge _ _ _ hh (by linarith)
    · exact roundDiv_le _ _ _ hh (by nlinarith)

theorem Options.blurRejected_of_not_nan (o : Options) (hn : o.BlurSigma ≠ Float64.nan) :
    o.blurRejected =
      !(Float64.inClosed (Float64.finite 0) (Float64.finite 8) o.BlurSigma) := by
  unfold Options.blurRejected Float64.inClosed Float64.gt
  cases hs : o.BlurSigma with
  | nan => exact absurd hs hn
  | negInf => rfl
  | posInf => rfl
  | finite q =>
    simp only [Float64.lt, Float64.le]
    by_cases h0 : q < 0
    · have : ¬ (0 : ℚ) ≤ q := not_le.mpr h0
      simp [h0, this]
    · have h0b : (0 : ℚ) ≤ q := not_lt.mp h0
      by_cases h8 : (8 : ℚ) < q
      · have : ¬ q ≤ 8 := not_le.mpr h8
        simp [h0, h0b, h8, this]
      · have : q ≤ 8 := not_lt.mp h8
        simp [h0, h0b, h8, this]

/-- The options a successful crop-mode `Options.Check` returns fit inside the original. -/
theorem Options.Check_crop_le (o : Options) (m : Metadata) (r : Options)
    (hcrop : o.Crop = true) (h : Options.Check scaleAspect o m = Except.ok r) :
    r.Width ≤ m.Width ∧ r.Height ≤ m.Height := by
  obtain ⟨_, _, _, hw, hh, _, _, hr⟩ := Options.Check_ok_inv scaleAspect o m r h
  rw [hr]
  unfold Options.shrunk
  split_ifs with hc
  · exact (scaleFit_le _ _ m.Width m.Height (by omega) (by omega)).2
  · have hcrop2 : (o.defaulted m).Crop = true := by rw [Options.defaulted_rest o m]; exact hcrop
    simp only [Options.cropExceeds, hcrop2, Bool.true_and, Bool.or_eq_true, decide_eq_true_eq,
      not_or, not_lt, gt_iff_lt] at hc
    exact hc

/-! ## The crop shrink, the fit mode and the crop mode -/

/-- C7: in crop mode with a requested box (after defaulting) larger than the original in width
or in height, a successful `Options.Check` returns a box inside the original, one of whose
dimensions is the original's while the other is the requested proportion of it rounded to a
whole pixel (within half a pixel of the exact value). -/
theorem check_crop_shrink (o : Options) (m : Metadata) (r : Options)
    (hcrop : o.Crop = true)
    (hex : (o.defaulted m).Width > m.Width ∨ (o.defaulted m).Height > m.Height)
    (h : Options.Check scaleAspect o m = Except.ok r) :
    (r.Width ≤ m.Width ∧ r.Height ≤ m.Height) ∧
    ((r.Width = m.Width ∧
        2 * (r.Height * (o.defaulted m).Width) ≤
          2 * ((o.defaulted m).Height * m.Width) + (o.defaulted m).Width ∧
        2 * ((o.defaulted m).Height * m.Width) ≤
          2 * (r.Height * (o.defaulted m).Width) + (o.defaulted m).Width) ∨
      (r.Height = m.Height ∧
        2 * (r.Width * (o.defaulted m).Height) ≤
          2 * ((o.defaulted m).Width * m.Height) + (o.defaulted m).Height ∧
        2 * ((o.defaulted m).Width * m.Height) ≤
          2 * (r.Width * (o.defaulted m).Height) + (o.defaulted m).Height)) := by
  refine ⟨Options.Check_crop_le o m r hcrop h, ?_⟩
  obtain ⟨_, _, _, hw, hh, _, _, hr⟩ := Options.Check_ok_inv scaleAspect o m r h
  have hcrop2 : (o.defaulted m).Crop = true := by rw [Options.defaulted_rest o m]; exact hcrop
  have hc : (o.defaulted m).cropExceeds m = true := by
    simp only [Options.cropExceeds, hcrop2, Bool.true_and, Bool.or_eq_true, decide_eq_true_eq]
    exact hex
  have hn : ¬ ((o.defaulted m).Width ≤ m.Width ∧ (o.defaulted m).Height ≤ m.Height) := by
    rintro ⟨h1, h2⟩
    rcases hex with hex | hex <;> omega
  have hrw : r.Width = (scaleFit (o.defaulted m).Width (o.defaulted m).Height
      m.Width m.Height).1 := by
    rw [hr]; simp [Options.shrunk, hc, scaleAspect]
  have hrh : r.Height = (scaleFit (o.defaulted m).Width (o.defaulted m).Height
      m.Width m.Height).2 := by
    rw [hr]; simp [Options.shrunk, hc, scaleAspect]
  rw [hrw, hrh]
  exact scaleFit_ratio _ _ m.Width m.Height (by omega) (by omega) hn

/-- The test value of C7: the crop request 2000x1500 on the 398x536 JPEG becomes 398x299. -/
theorem check_crop_shrink_witness :
    Options.Check scaleAspect { Options.zero with Width := 2000, Height := 1500, Crop := true }
        { Width := 398, Height := 536, Format := Format.Jpeg } =
      Except.ok { Options.zero with Width := 398, Height := 299, Crop := true } ∧
    ((398 : Int) ≤ 398 ∧ (299 : Int) ≤ 536) :=
  ⟨rfl,
   (check_crop_shrink { Options.zero with Width := 2000, Height := 1500, Crop := true }
      { Width := 398, Height := 536, Format := Format.Jpeg }
      { Options.zero with Width := 398, Height := 299, Crop := true }
      rfl (by decide) rfl).1⟩

/-- The fit mode of `scaleAspect` (the Boolean `true`): for a source `w` by `h` with both in
`[minDimension, maxDimension]` and any box, the size exceeds neither the source nor the box;
when the source does not already fit in the box one dimension equals that of the box, and
when it does the size is the source's. -/
theorem scaleAspect_fit_mode (w h bw bh : Int)
    (hw : minDimension ≤ w ∧ w ≤ maxDimension) (hh : minDimension ≤ h ∧ h ≤ maxDimension) :
    ((scaleAspect w h bw bh true).1 ≤ w ∧ (scaleAspect w h bw bh true).2 ≤ h) ∧
    ((scaleAspect w h bw bh true).1 ≤ bw ∧ (scaleAspect w h bw bh true).2 ≤ bh) ∧
    (¬ (w ≤ bw ∧ h ≤ bh) →
      (scaleAspect w h bw bh true).1 = bw ∨ (scaleAspect w h bw bh true).2 = bh) ∧
    ((w ≤ bw ∧ h ≤ bh) → scaleAspect w h bw bh true = (w, h)) := by
  have hw0 : 0 < w := by have := hw.1; unfold minDimension at this; omega
  have hh0 : 0 < h := by have := hh.1; unfold minDimension at this; omega
  simp only [scaleAspect, if_true]
  refine ⟨(scaleFit_le w h bw bh hw0 hh0).1, (scaleFit_le w h bw bh hw0 hh0).2, ?_, ?_⟩
  · intro hn
    rcases scaleFit_ratio w h bw bh hw0 hh0 hn with h1 | h1
    · exact Or.inl h1.1
    · exact Or.inr h1.1
  · intro hfit
    simp [scaleFit, hfit]

/-- The sizes the tests expect on the 398x536 JPEG are those of the fit mode on the boxes
`Options.Check` returns: 200x300 gives 200x269, `Width` 200 alone gives 200x269, `Height` 300
alone gives 223x300, and 2048x2048 leaves 398x536. -/
theorem scaleAspect_fit_mode_witness :
    ((scaleAspect 398 536 200 300 true).1 ≤ 398 ∧ (scaleAspect 398 536 200 300 true).2 ≤ 536) ∧
    scaleAspect 398 536 200 300 true = (200, 269) ∧
    (Options.Check scaleAspect { Options.zero with Width := 200 }
        { Width := 398, Height := 536, Format := Format.Jpeg }).map
      (fun c => scaleAspect 398 536 c.Width c.Height true) = Except.ok (200, 269) ∧
    (Options.Check scaleAspect { Options.zero with Height := 300 }
        { Width := 398, Height := 536, Format := Format.Jpeg }).map
      (fun c => scaleAspect 398 536 c.Width c.Height true) = Except.ok (223, 300) ∧
    (Options.Check scaleAspect { Options.zero with Width := 2048, Height := 2048 }
        { Width := 398, Height := 536, Format := Format.Jpeg }).map
      (fun c => scaleAspect 398 536 c.Width c.Height true) = Except.ok (398, 536) :=
  ⟨(scaleAspect_fit_mode 398 536 200 300 (by decide) (by decide)).1, rfl, rfl, rfl, rfl⟩

/-- C8 fails on `Imager.Thumbnail`: with `Crop = false` line 79 passes `false` to
`scaleAspect`, the Boolean with which line 112 asks for the size covering the box.  The
398x536 JPEG asked at 200x300 comes out at 223x300, wider than its box, where the fit mode
(the Boolean `true` of lines 107 and `options.go:88`) gives the 200x269 the test expects. -/
theorem thumbnail_fit_exceeds_box :
    scaleAspect 398 536 200 300 false = (223, 300) ∧
    Imager.Thumbnail Backend.ideal { width := 398, height := 536, format := Format.Jpeg }
        { Options.zero with Width := 200, Height := 300, Crop := false } =
      Except.ok (223, 300) ∧
    (223 : Int) > 200 ∧
    scaleAspect 398 536 200 300 true = (200, 269) :=
  ⟨rfl, rfl, by decide, rfl⟩

/-- The sizes `Imager.Crop` plans: the box of lines 101-108 is inside the source, and the
intermediate size of line 112 is at least the box and inside the source. -/
theorem Imager.crop_plan (imager : Imager) (options : Options)
    (hmw : 0 < imager.width) (hmh : 0 < imager.height)
    (hw : 0 < options.Width) (hh : 0 < options.Height) :
    ((imager.cropBox options).1 ≤ imager.width ∧ (imager.cropBox options).2 ≤ imager.height) ∧
    ((imager.cropBox options).1 ≤ (imager.cropIntermediate options).1 ∧
      (imager.cropBox options).2 ≤ (imager.cropIntermediate options).2) := by
  have hbox : (imager.cropBox options).1 ≤ imager.width ∧
      (imager.cropBox options).2 ≤ imager.height := by
    unfold Imager.cropBox
    split_ifs with hex
    · simp only [scaleAspect, if_true]
      exact (scaleFit_le _ _ imager.width imager.height hw hh).2
    · simp only
      constructor
      · by_contra hx; exact hex (Or.inl (by omega))
      · by_contra hx; exact hex (Or.inr (by omega))
  refine ⟨hbox, ?_⟩
  unfold Imager.cropIntermediate
  simp only [scaleAspect, Bool.false_eq_true, if_false]
  exact (scaleCover_ge imager.width imager.height _ _ hmw hmh hbox.1 hbox.2).1

/-- C9: for a valid source size and a requested size in `[1, maxDimension]`, with a backend
whose `NewResult` loads at least the intermediate size asked and whose `Resize` and `Crop`
leave the size asked: the intermediate size of `Imager.Crop` is at least the (possibly shrunk) requested box
in both dimensions; whenever `Imager.Crop` returns, its result has exactly the size of that
box; and it does return when validation passes and the backend does not fail. -/
theorem crop_exact_size {ε : Type} (backend : Backend ε) (imager : Imager) (options : Options)
    (hmw : minDimension ≤ imager.width ∧ imager.width ≤ maxDimension)
    (hmh : minDimension ≤ imager.height ∧ imager.height ≤ maxDimension)
    (hw : 1 ≤ options.Width ∧ options.Width ≤ maxDimension)
    (hh : 1 ≤ options.Height ∧ options.Height ≤ maxDimension)
    (hload : ∀ s : Int × Int,
      backend.newResult imager (imager.cropIntermediate options).1
          (imager.cropIntermediate options).2 = Except.ok s →
        (imager.cropIntermediate options).1 ≤ s.1 ∧ (imager.cropIntermediate options).2 ≤ s.2)
    (hresize : ∀ (s : Int × Int) (w h : Int) (t : Int × Int),
      backend.resize s w h = Except.ok t → t = (w, h))
    (hcrop : ∀ (s : Int × Int) (w h : Int) (t : Int × Int),
      backend.crop s w h = Except.ok t → t = (w, h)) :
    ((imager.cropIntermediate options).1 ≥ (imager.cropBox options).1 ∧
      (imager.cropIntermediate options).2 ≥ (imager.cropBox options).2) ∧
    (∀ r : CropSizes, Imager.Crop backend imager options = Except.ok r →
      (r.width, r.height) = imager.cropBox options ∧
      (r.iw, r.ih) = imager.cropIntermediate options ∧
      (r.resultWidth = r.width ∧ r.resultHeight = r.height) ∧
      (r.iw ≥ r.width ∧ r.ih ≥ r.height)) ∧
    (backend.check options imager.format imager.width imager.height = none →
      (∀ w h : Int, ∃ s, backend.newResult imager w h = Except.ok s) →
      (∀ (s : Int × Int) (w h : Int), ∃ t, backend.resize s w h = Except.ok t) →
      (∀ (s : Int × Int) (w h : Int), ∃ t, backend.crop s w h = Except.ok t) →
      (∀ s : Int × Int, backend.get s = none) →
      ∃ r : CropSizes, Imager.Crop backend imager options = Except.ok r) := by
  simp only [minDimension] at hmw hmh
  obtain ⟨_, hge⟩ := Imager.crop_plan imager options (by omega) (by omega) (by omega)
    (by omega)
  refine ⟨hge, ?_, ?_⟩
  · intro r hr
    unfold Imager.Crop at hr
    simp only at hr
    split at hr
    · exact absurd hr (by simp)
    · split at hr
      · exact absurd hr (by simp)
      · rename_i loaded hloaded
        have hl := hload _ hloaded
        split at hr
        · exact absurd hr (by simp)
        · rename_i resized hresized
          have hres : resized = imager.cropIntermediate options := by
            split_ifs at hresized with hc
            · exact hresize _ _ _ _ hresized
            · injection hresized with hresized
              rw [← hresized]
              exact Prod.ext (by by_contra hx; exact hc (Or.inl (by omega)))
                (by by_contra hx; exact hc (Or.inr (by omega)))
          split at hr
          · exact absurd hr (by simp)
          · rename_i cropped hcropped
            have hcr : cropped = imager.cropBox options := by
              split_ifs at hcropped with hc
              · exact hcrop _ _ _ _ hcropped
              · injection hcropped with hcropped
                rw [← hcropped, hres]
                rw [hres] at hc
                exact Prod.ext (by by_contra hx; exact hc (Or.inl (by omega)))
                  (by by_contra hx; exact hc (Or.inr (by omega)))
            split at hr
            · exact absurd hr (by simp)
            · subst hcr
              injection hr with hr
              rw [← hr]
              exact ⟨rfl, rfl, ⟨rfl, rfl⟩, hge⟩
  · intro hcheck hnew hres hcr hget
    obtain ⟨loaded, hloaded⟩ := hnew (imager.cropIntermediate options).1
      (imager.cropIntermediate options).2
    obtain ⟨resized, hresized⟩ : ∃ t, (if loaded.1 > (imager.cropIntermediate options).1 ∨
        loaded.2 > (imager.cropIntermediate options).2 then
        backend.resize loaded (imager.cropIntermediate options).1
          (imager.cropIntermediate options).2 else Except.ok loaded) = Except.ok t := by
      split_ifs
      · exact hres _ _ _
      · exact ⟨_, rfl⟩
    obtain ⟨cropped, hcropped⟩ : ∃ t, (if resized.1 > (imager.cropBox options).1 ∨
        resized.2 > (imager.cropBox options).2 then
        backend.crop resized (imager.cropBox options).1 (imager.cropBox options).2
        else Except.ok resized) = Except.ok t := by
      split_ifs
      · exact hcr _ _ _
      · exact ⟨_, rfl⟩
    refine ⟨{ width := (imager.cropBox options).1, height := (imager.cropBox options).2,
              iw := (imager.cropIntermediate options).1,
              ih := (imager.cropIntermediate options).2,
              resultWidth := cropped.1, resultHeight := cropped.2 }, ?_⟩
    unfold Imager.Crop
    simp only [hcheck, hloaded, hresized, hcropped, hget]

/-- The test value of C9: with a backend that loads the 398x536 JPEG at its size and resizes
and crops as asked, the request 300x400 goes through the intermediate size 300x404 and comes
out at exactly 300x400. -/
theorem crop_exact_size_witness :
    Imager.Crop Backend.ideal { width := 398, height := 536, format := Format.Jpeg }
        { Options.zero with Width := 300, Height := 400, Crop := true } =
      Except.ok { width := 300, height := 400, iw := 300, ih := 404,
                  resultWidth := 300, resultHeight := 400 } ∧
    ((300 : Int) = 300 ∧ (400 : Int) = 400) ∧ ((300 : Int) ≥ 300 ∧ (404 : Int) ≥ 400) :=
  ⟨rfl,
   ((crop_exact_size Backend.ideal { width := 398, height := 536, format := Format.Jpeg }
      { Options.zero with Width := 300, Height := 400, Crop := true }
      (by decide) (by decide) (by decide) (by decide)
      (fun s hs => by
        have e : s = (398, 536) := by
          injection hs with hs; exact hs.symm
        rw [e]
        decide)
      (fun _ _ _ _ ht => by injection ht with ht; exact ht.symm)
      (fun _ _ _ _ ht => by injection ht with ht; exact ht.symm)).2.1
      { width := 300, height := 400, iw := 300, ih := 404,
        resultWidth := 300, resultHeight := 400 } rfl).2.2⟩

/-! ## The blur check -/

/-- C10 fails on the code at a NaN `BlurSigma`: NaN is not in the closed interval
`[0.0, 8.0]`, yet both comparisons of line 101 are false for it, so `Options.Check` accepts it
on a 2x2 PNG instead of returning `ErrBadOption`, the error "returned when option values are
out of range". -/
theorem check_blur_nan_accepted :
    Float64.inClosed (Float64.finite 0) (Float64.finite 8) Float64.nan = false ∧
    Options.Check scaleAspect { Options.zero with BlurSigma := Float64.nan }
        { Width := 2, Height := 2, Format := Format.Png } =
      Except.ok { Options.zero with Width := 2, Height := 2, BlurSigma := Float64.nan } :=
  ⟨rfl, rfl⟩

/-- The blur guard away from NaN: `ErrBadOption` is returned only after the format, size and
buffer checks have passed; and once they have passed, for every `BlurSigma` other than NaN,
`Options.Check` fails with `ErrBadOption` exactly when `BlurSigma` is outside the closed
interval `[0.0, 8.0]`. -/
theorem check_blur_sigma (sa : Int → Int → Int → Int → Bool → Int × Int)
    (o : Options) (m : Metadata) :
    (Options.Check sa o m = Except.error Error.ErrBadOption →
      m.Format ≠ Format.Unknown ∧
      (minDimension ≤ m.Width ∧ m.Width ≤ maxDimension) ∧
      (minDimension ≤ m.Height ∧ m.Height ≤ maxDimension) ∧
      (1 ≤ (o.defaulted m).Width ∧ (o.defaulted m).Width ≤ maxDimension) ∧
      (1 ≤ (o.defaulted m).Height ∧ (o.defaulted m).Height ≤ maxDimension) ∧
      o.bufferExceeded m = false) ∧
    (o.BlurSigma ≠ Float64.nan →
      m.Format ≠ Format.Unknown →
      (minDimension ≤ m.Width ∧ m.Width ≤ maxDimension) →
      (minDimension ≤ m.Height ∧ m.Height ≤ maxDimension) →
      (1 ≤ (o.defaulted m).Width ∧ (o.defaulted m).Width ≤ maxDimension) →
      (1 ≤ (o.defaulted m).Height ∧ (o.defaulted m).Height ≤ maxDimension) →
      o.bufferExceeded m = false →
      (Options.Check sa o m = Except.error Error.ErrBadOption ↔
        Float64.inClosed (Float64.finite 0) (Float64.finite 8) o.BlurSigma = false)) := by
  constructor
  · intro h
    rw [Options.Check_eq, Options.shrunk_bufferExceeded, Options.shrunk_blurRejected] at h
    split_ifs at h with h0 h1 h2 h3 h4 h5 h6
    all_goals first
      | (exfalso; revert h; simp; done)
      | skip
    refine ⟨h0, ⟨?_, ?_⟩, ⟨?_, ?_⟩, ⟨?_, ?_⟩, ⟨?_, ?_⟩, ?_⟩
    · by_contra hc; exact h1 (Or.inl (by omega))
    · by_contra hc; exact h2 (Or.inl (by omega))
    · by_contra hc; exact h1 (Or.inr (by omega))
    · by_contra hc; exact h2 (Or.inr (by omega))
    · by_contra hc; exact h3 (Or.inl (by omega))
    · by_contra hc; exact h4 (Or.inl (by omega))
    · by_contra hc; exact h3 (Or.inr (by omega))
    · by_contra hc; exact h4 (Or.inr (by omega))
    · simpa using h5
  · intro hn hf hmw hmh hw hh hb
    rw [Options.Check_of_sizes sa o m hf hmw hmh hw hh,
      Options.blurRejected_of_not_nan o hn]
    cases hin : Float64.inClosed (Float64.finite 0) (Float64.finite 8) o.BlurSigma <;>
      simp [hb]

/-- The blur guard at the two ends of the interval and just outside: on a 2x2 PNG a
`BlurSigma` of 0.0 and one of 8.0 are accepted, and one of -1.0 fails with `ErrBadOption`. -/
theorem check_blur_sigma_witness :
    Options.Check scaleAspect { Options.zero with BlurSigma := Float64.finite 0 }
        { Width := 2, Height := 2, Format := Format.Png } ≠
      Except.error Error.ErrBadOption ∧
    Options.Check scaleAspect { Options.zero with BlurSigma := Float64.finite 8 }
        { Width := 2, Height := 2, Format := Format.Png } ≠
      Except.error Error.ErrBadOption ∧
    Options.Check scaleAspect { Options.zero with BlurSigma := Float64.finite (-1) }
        { Width := 2, Height := 2, Format := Format.Png } =
      Except.error Error.ErrBadOption :=
  ⟨fun h => absurd
      (((check_blur_sigma scaleAspect { Options.zero with BlurSigma := Float64.finite 0 }
        { Width := 2, Height := 2, Format := Format.Png }).2
        (by simp) (by decide) (by decide) (by decide) (by decide) (by decide) rfl).1 h)
      (by simp [Float64.inClosed, Float64.le]),
   fun h => absurd
      (((check_blur_sigma scaleAspect { Options.zero with BlurSigma := Float64.finite 8 }
        { Width := 2, Height := 2, Format := Format.Png }).2
        (by simp) (by decide) (by decide) (by decide) (by decide) (by decide) rfl).1 h)
      (by simp [Float64.inClosed, Float64.le]),
   ((check_blur_sigma scaleAspect { Options.zero with BlurSigma := Float64.finite (-1) }
      { Width := 2, Height := 2, Format := Format.Png }).2
      (by simp) (by decide) (by decide) (by decide) (by decide) (by decide) rfl).2
      (by simp [Float64.inClosed, Float64.le])⟩

/-! ## Checking again, and raising the buffer budget -/

theorem Options.defaulted_of_ne_zero (o : Options) (m : Metadata)
    (hw : o.Width ≠ 0) (hh : o.Height ≠ 0) : o.defaulted m = o := by
  simp [Options.defaulted, hw, hh]

/-- C13: when `Options.Check` succeeds with `r`, and either crop mode is off or the returned
box has both sides at least 1 and inside the original, checking `r` against the same metadata
succeeds and returns `r` itself; this holds for every `scaleAspect`. -/
theorem check_idempotent (sa : Int → Int → Int → Int → Bool → Int × Int)
    (o : Options) (m : Metadata) (r : Options) (h : Options.Check sa o m = Except.ok r)
    (hc : o.Crop = false ∨
      ((1 ≤ r.Width ∧ r.Width ≤ m.Width) ∧ (1 ≤ r.Height ∧ r.Height ≤ m.Height))) :
    Options.Check sa r m = Except.ok r := by
  obtain ⟨hf, hmw, hmh, hw, hh, hb, hs, hr⟩ := Options.Check_ok_inv sa o m r h
  have hcrop : r.Crop = o.Crop := by rw [hr, Options.shrunk_rest sa o m]
  have hdcrop : (o.defaulted m).Crop = o.Crop := by rw [Options.defaulted_rest o m]
  have hrb : r.bufferExceeded m = false := by rw [hr, Options.shrunk_bufferExceeded]; exact hb
  have hrs : r.blurRejected = false := by rw [hr, Options.shrunk_blurRejected]; exact hs
  have hbox : ((1 ≤ r.Width ∧ r.Width ≤ maxDimension) ∧
      (1 ≤ r.Height ∧ r.Height ≤ maxDimension)) ∧
      (r.Crop = false ∨ (r.Width ≤ m.Width ∧ r.Height ≤ m.Height)) := by
    rcases hc with hc | ⟨⟨h1, h2⟩, h3, h4⟩
    · have hne : (o.defaulted m).cropExceeds m = false := by
        simp [Options.cropExceeds, hdcrop, hc]
      refine ⟨?_, Or.inl (by rw [hcrop]; exact hc)⟩
      rw [hr, Options.shrunk_of_not_exceeds sa o m hne]
      exact ⟨hw, hh⟩
    · exact ⟨⟨⟨h1, by omega⟩, h3, by omega⟩, Or.inr ⟨h2, h4⟩⟩
  obtain ⟨⟨hrw, hrh⟩, hin⟩ := hbox
  have hd : r.defaulted m = r :=
    Options.defaulted_of_ne_zero r m (by omega) (by omega)
  have hne : (r.defaulted m).cropExceeds m = false := by
    rw [hd]
    rcases hin with hin | ⟨h1, h2⟩
    · simp [Options.cropExceeds, hin]
    · have e1 : decide (r.Width > m.Width) = false := decide_eq_false (by omega)
      have e2 : decide (r.Height > m.Height) = false := decide_eq_false (by omega)
      simp [Options.cropExceeds, e1, e2]
  rw [Options.Check_of_sizes sa r m hf hmw hmh (by rw [hd]; exact hrw) (by rw [hd]; exact hrh),
    Options.shrunk_of_not_exceeds sa r m hne, hd]
  simp [hrb, hrs]

/-- C13 on the crop request of the test: 2000x1500 on the 398x536 JPEG is returned as 398x299,
and checking that result again returns it unchanged. -/
theorem check_idempotent_witness :
    Options.Check scaleAspect { Options.zero with Width := 398, Height := 299, Crop := true }
        { Width := 398, Height := 536, Format := Format.Jpeg } =
      Except.ok { Options.zero with Width := 398, Height := 299, Crop := true } :=
  check_idempotent scaleAspect
    { Options.zero with Width := 2000, Height := 1500, Crop := true }
    { Width := 398, Height := 536, Format := Format.Jpeg }
    { Options.zero with Width := 398, Height := 299, Crop := true } rfl
    (Or.inr (by decide))

/-- The guard of line 97 compares the mathematical products as soon as the budget times the
squared scale stays below `2^63`. -/
theorem Options.bufferExceeded_iff_of_lt (o : Options) (m : Metadata)
    (hmw : minDimension ≤ m.Width ∧ m.Width ≤ maxDimension)
    (hmh : minDimension ≤ m.Height ∧ m.Height ≤ maxDimension)
    (hb : 0 < o.MaxBufferPixels)
    (hno : o.MaxBufferPixels * bufferScale m * bufferScale m < 2 ^ 63) :
    o.bufferExceeded m = true ↔
      m.Width * m.Height > o.MaxBufferPixels * bufferScale m * bufferScale m := by
  have hs : bufferScale m = 1 ∨ bufferScale m = 8 := by
    unfold bufferScale; split_ifs <;> simp
  simp only [minDimension, maxDimension] at hmw hmh
  have hp1 : 0 ≤ m.Width * m.Height := by nlinarith
  have hp2 : m.Width * m.Height ≤ 32766 * 32766 := by nlinarith
  have e1 : mulInt m.Width m.Height = m.Width * m.Height :=
    mulInt_of_range _ _ (by omega) (by omega)
  have e2 : mulInt o.MaxBufferPixels (bufferScale m) = o.MaxBufferPixels * bufferScale m := by
    apply mulInt_of_range <;> rcases hs with hs | hs <;> rw [hs] at hno ⊢ <;> omega
  have e3 : mulInt (o.MaxBufferPixels * bufferScale m) (bufferScale m) =
      o.MaxBufferPixels * bufferScale m * bufferScale m := by
    apply mulInt_of_range <;> rcases hs with hs | hs <;> rw [hs] at hno ⊢ <;> omega
  simp only [Options.bufferExceeded, e1, e2, e3, Bool.and_eq_true, decide_eq_true_eq, gt_iff_lt]
  exact ⟨fun h => h.2, fun h => ⟨hb, h⟩⟩

theorem Options.defaulted_setBuffer (o : Options) (m : Metadata) (b : Int) :
    Options.defaulted { o with MaxBufferPixels := b } m =
      { o.defaulted m with MaxBufferPixels := b } := by
  unfold Options.defaulted
  by_cases hw : o.Width = 0 <;> by_cases hh : o.Height = 0 <;> simp [hw, hh]

theorem Options.shrunk_setBuffer (sa : Int → Int → Int → Int → Bool → Int × Int)
    (o : Options) (m : Metadata) (b : Int) :
    Options.shrunk sa { o with MaxBufferPixels := b } m =
      { o.shrunk sa m with MaxBufferPixels := b } := by
  unfold Options.shrunk
  rw [Options.defaulted_setBuffer]
  by_cases hc : (o.defaulted m).cropExceeds m = true
  · have hc2 : Options.cropExceeds { o.defaulted m with MaxBufferPixels := b } m = true := hc
    simp only [hc, hc2, if_true]
  · have hc2 : ¬ Options.cropExceeds { o.defaulted m with MaxBufferPixels := b } m = true := hc
    simp only [hc, hc2]
    rfl

/-- C14 fails on the code at the budget `2^61`: the 398x536 JPEG asked at 200x300 is accepted
with a budget of 10000 pixels and rejected with the larger budget `2^61`, which a 64-bit `int`
holds, because the product `2^61 * 8` of line 97 wraps to 0; the same request on a PNG of the
same size, where the scale is 1, is accepted at `2^61`. -/
theorem check_budget_overflow_rejects :
    Options.Check scaleAspect
        { Options.zero with Width := 200, Height := 300, MaxBufferPixels := 10000 }
        { Width := 398, Height := 536, Format := Format.Jpeg } =
      Except.ok { Options.zero with Width := 200, Height := 300, MaxBufferPixels := 10000 } ∧
    ((10000 : Int) ≤ 2 ^ 61 ∧ (2 : Int) ^ 61 < 2 ^ 63) ∧
    mulInt (mulInt (2 ^ 61) 8) 8 = 0 ∧
    Options.Check scaleAspect
        { Options.zero with Width := 200, Height := 300, MaxBufferPixels := 2 ^ 61 }
        { Width := 398, Height := 536, Format := Format.Jpeg } =
      Except.error Error.ErrTooBig ∧
    Options.Check scaleAspect
        { Options.zero with Width := 200, Height := 300, MaxBufferPixels := 2 ^ 61 }
        { Width := 398, Height := 536, Format := Format.Png } =
      Except.ok { Options.zero with Width := 200, Height := 300, MaxBufferPixels := 2 ^ 61 } :=
  ⟨rfl, by decide, rfl, rfl, rfl⟩

/-- Raising the budget below the overflow: when `Options.Check` succeeds with a budget
`b > 0`, it also succeeds, with the same result but for the budget, for every budget `b'`
with `b <= b'` whose product `b' * s * s` stays below `2^63` (`s = 8` for JPEG, `1`
otherwise). -/
theorem check_budget_monotone (sa : Int → Int → Int → Int → Bool → Int × Int)
    (o : Options) (m : Metadata) (r : Options) (b : Int)
    (h : Options.Check sa o m = Except.ok r)
    (hb : 0 < o.MaxBufferPixels) (hle : o.MaxBufferPixels ≤ b)
    (hno : b * bufferScale m * bufferScale m < 2 ^ 63) :
    Options.Check sa { o with MaxBufferPixels := b } m =
      Except.ok { r with MaxBufferPixels := b } := by
  obtain ⟨hf, hmw, hmh, hw, hh, hbuf, hblur, hr⟩ := Options.Check_ok_inv sa o m r h
  have hs : bufferScale m = 1 ∨ bufferScale m = 8 := by
    unfold bufferScale; split_ifs <;> simp
  have hno1 : o.MaxBufferPixels * bufferScale m * bufferScale m < 2 ^ 63 := by
    rcases hs with hs | hs <;> rw [hs] at hno ⊢ <;> omega
  have h1 : ¬ (m.Width * m.Height >
      o.MaxBufferPixels * bufferScale m * bufferScale m) := by
    rw [← Options.bufferExceeded_iff_of_lt o m hmw hmh hb hno1, hbuf]
    decide
  have hbuf2 : Options.bufferExceeded { o with MaxBufferPixels := b } m = false := by
    have hiff := Options.bufferExceeded_iff_of_lt { o with MaxBufferPixels := b } m hmw hmh
      (by show 0 < b; omega) hno
    have hn : ¬ (m.Width * m.Height > b * bufferScale m * bufferScale m) := by
      rcases hs with hs | hs <;> rw [hs] at h1 ⊢ <;> omega
    cases hx : Options.bufferExceeded { o with MaxBufferPixels := b } m
    · rfl
    · exact absurd (hiff.mp hx) hn
  have hblur2 : Options.blurRejected { o with MaxBufferPixels := b } = false := hblur
  have hw2 : 1 ≤ (Options.defaulted { o with MaxBufferPixels := b } m).Width ∧
      (Options.defaulted { o with MaxBufferPixels := b } m).Width ≤ maxDimension := by
    rw [Options.defaulted_setBuffer]; exact hw
  have hh2 : 1 ≤ (Options.defaulted { o with MaxBufferPixels := b } m).Height ∧
      (Options.defaulted { o with MaxBufferPixels := b } m).Height ≤ maxDimension := by
    rw [Options.defaulted_setBuffer]; exact hh
  rw [Options.Check_of_sizes sa _ m hf hmw hmh hw2 hh2, Options.shrunk_setBuffer, ← hr]
  simp [hbuf2, hblur2]

/-- Raising the budget on the 398x536 JPEG asked at 200x300: accepted with a budget of 10000
pixels, it is accepted with a budget of 20000. -/
theorem check_budget_monotone_witness :
    Options.Check scaleAspect
        { Options.zero with Width := 200, Height := 300, MaxBufferPixels := 20000 }
        { Width := 398, Height := 536, Format := Format.Jpeg } =
      Except.ok { Options.zero with Width := 200, Height := 300, MaxBufferPixels := 20000 } :=
  check_budget_monotone scaleAspect
    { Options.zero with Width := 200, Height := 300, MaxBufferPixels := 10000 }
    { Width := 398, Height := 536, Format := Format.Jpeg }
    { Options.zero with Width := 200, Height := 300, MaxBufferPixels := 10000 } 20000
    rfl (by decide) (by decide) (by decide)

/-! ## The status table of the proxy -/

/-- C11: the status of a proxy response.  A non-zero director status is returned verbatim;
otherwise an origin not-found gives 404, bytes the codec cannot load or an image of unknown
format give 415, an image narrower or lower than `minDimension` gives 415, and an image wider
or taller than `maxDimension`, or one over the buffer budget, gives 413. -/
theorem proxy_status_table (originFailure badOption : Int) (o : Options) (status : Int)
    (origin : Origin) :
    (status ≠ 0 → Proxy.status originFailure badOption (o, status) origin = status) ∧
    (status = 0 →
      Proxy.status originFailure badOption (o, status) Origin.notFound = 404 ∧
      Proxy.status originFailure badOption (o, status) (Origin.body none) = 415 ∧
      (∀ m : Metadata, m.Format = Format.Unknown →
        Proxy.status originFailure badOption (o, status) (Origin.body (some m)) = 415) ∧
      (∀ m : Metadata, m.Format ≠ Format.Unknown →
        (m.Width < minDimension ∨ m.Height < minDimension) →
        Proxy.status originFailure badOption (o, status) (Origin.body (some m)) = 415) ∧
      (∀ m : Metadata, m.Format ≠ Format.Unknown →
        ¬ (m.Width < minDimension ∨ m.Height < minDimension) →
        (m.Width > maxDimension ∨ m.Height > maxDimension) →
        Proxy.status originFailure badOption (o, status) (Origin.body (some m)) = 413) ∧
      (∀ m : Metadata, Options.Check scaleAspect o m = Except.error Error.ErrTooBig →
        Proxy.status originFailure badOption (o, status) (Origin.body (some m)) = 413) ∧
      (∀ m : Metadata, Options.Check scaleAspect o m = Except.error Error.ErrTooSmall →
        Proxy.status originFailure badOption (o, status) (Origin.body (some m)) = 415)) := by
  constructor
  · intro hs
    simp [Proxy.status, hs]
  · intro hs
    have hof : ∀ (m : Metadata) (err : Error),
        Options.Check scaleAspect o m = Except.error err →
        Proxy.status originFailure badOption (o, status) (Origin.body (some m)) =
          statusOfError badOption err := by
      intro m err he
      simp [Proxy.status, hs, he]
    refine ⟨by simp [Proxy.status, hs], by simp [Proxy.status, hs], ?_, ?_, ?_, ?_, ?_⟩
    · intro m hf
      rw [hof m Error.ErrUnknownFormat (by rw [Options.Check_eq]; simp only [hf, if_true])]
      rfl
    · intro m hf hsmall
      rw [hof m Error.ErrTooSmall
        (by rw [Options.Check_eq]; simp only [hf, hsmall, if_false, if_true])]
      rfl
    · intro m hf hsmall hbig
      rw [hof m Error.ErrTooBig
        (by rw [Options.Check_eq]; simp only [hf, hsmall, hbig, if_false, if_true])]
      rfl
    · intro m he
      rw [hof m _ he]; rfl
    · intro m he
      rw [hof m _ he]; rfl

/-- The test values of C11, with `Options{}` as the test's director returns: a director status
of 403 is returned as it is, a missing origin file gives 404, a text file 415, the 1x1 PNG
415, the 34000x16 PNG 413, and the 2x3 PNG 200. -/
theorem proxy_status_table_witness :
    Proxy.status 502 400 (Options.zero, 403)
      (Origin.body (some { Width := 2, Height := 3, Format := Format.Png })) = 403 ∧
    Proxy.status 502 400 (Options.zero, 0) Origin.notFound = 404 ∧
    Proxy.status 502 400 (Options.zero, 0) (Origin.body none) = 415 ∧
    Proxy.status 502 400 (Options.zero, 0)
      (Origin.body (some { Width := 1, Height := 1, Format := Format.Png })) = 415 ∧
    Proxy.status 502 400 (Options.zero, 0)
      (Origin.body (some { Width := 34000, Height := 16, Format := Format.Png })) = 413 ∧
    Proxy.status 502 400 (Options.zero, 0)
      (Origin.body (some { Width := 2, Height := 3, Format := Format.Png })) = 200 :=
  ⟨(proxy_status_table 502 400 Options.zero 403
      (Origin.body (some { Width := 2, Height := 3, Format := Format.Png }))).1 (by decide),
   ((proxy_status_table 502 400 Options.zero 0 Origin.notFound).2 rfl).1,
   ((proxy_status_table 502 400 Options.zero 0 Origin.notFound).2 rfl).2.1,
   ((proxy_status_table 502 400 Options.zero 0 Origin.notFound).2 rfl).2.2.2.1
      { Width := 1, Height := 1, Format := Format.Png } (by decide) (by decide),
   ((proxy_status_table 502 400 Options.zero 0 Origin.notFound).2 rfl).2.2.2.2.1
      { Width := 34000, Height := 16, Format := Format.Png } (by decide) (by decide)
      (by decide),
   rfl⟩

end Fotomat
